import Mathlib

/-!
Verification of the Pineapple discovery/dispatch pipeline
(`PineappleListener.py`, `PluginManager.py`) against its specification.

The Python code is shallowly embedded: dictionaries holding commands and
per-device state become Lean structures, Python truthiness becomes explicit
`truthy` functions, and each loop body or callback becomes a pure Lean
function over that state.  Exceptions that a `try`/`except` in the source
catches are modelled by explicit outcome flags; exceptions that escape a
modelled function are modelled by a `raised` flag or an `Option` result,
as noted at each definition.
-/

set_option autoImplicit false

namespace Pineapple

/-- A dynamically typed Python value, restricted to the shapes the
`value` / `port` fields of commands actually take in the source
(`None`, booleans, strings, numbers). -/
inductive PyVal where
  | none : PyVal
  | bool (b : Bool) : PyVal
  | str (s : String) : PyVal
  | nat (n : Nat) : PyVal
deriving Repr, DecidableEq

/-- Python truthiness of a `PyVal` (`bool(v)`). -/
def PyVal.truthy : PyVal → Bool
  | .none => false
  | .bool b => b
  | .str s => s ≠ ""
  | .nat n => n ≠ 0

/-- Python truthiness of an optional string (`None` and `""` are falsy). -/
def strOptTruthy : Option String → Bool
  | Option.none => false
  | Option.some s => s ≠ ""

/-- A command dictionary on the bus.  Fields that a given command's dict
does not contain are `none` / `PyVal.none` (indistinguishable from an
explicit `None` through `dict.get`, which is how the source reads them). -/
structure Cmd where
  ctype : String
  device : Option String := Option.none
  value : PyVal := PyVal.none
  ip : Option String := Option.none
  port : PyVal := PyVal.none
  sub_ip : Option String := Option.none
  subname : Option String := Option.none
deriving Repr, DecidableEq

/-- One entry of `DiscoveryService.device_states`
(`PineappleListener.py` line 31). -/
structure DeviceState where
  hostname : String
  ip : Option String := Option.none
  resolved : Bool := false
  reachable : Bool := false
  checked : Bool := false
  subname : String := ""
  port : PyVal := PyVal.none
  attached_subname : String := ""
  sub_ip : Option String := Option.none
deriving Repr, DecidableEq

/-- One device entry of the loaded YAML configuration: the keys
`DiscoveryService.__init__` reads from it.  An absent optional key is
`none` (the source reads them with `dict.get` and a default). -/
structure DeviceConfig where
  attached_name : String
  hostname : String
  subname : Option String := Option.none
  attached_subname : Option String := Option.none
  checked : Option Bool := Option.none
deriving Repr, DecidableEq

/-- The registry state `DiscoveryService.__init__` creates for one device
(`PineappleListener.py` line 31):
`{'hostname': d['hostname'], 'ip': None, 'resolved': False,
'reachable': False, 'checked': d.get('checked', False),
'subname': d.get('subname', ''), 'port': None,
'attached_subname': d.get('attached_subname', '')}`. -/
def initDeviceState (d : DeviceConfig) : DeviceState :=
  { hostname := d.hostname
    ip := Option.none
    resolved := false
    reachable := false
    checked := d.checked.getD false
    subname := d.subname.getD ""
    port := PyVal.none
    attached_subname := d.attached_subname.getD ""
    sub_ip := Option.none }

/-- `self.device_states = { d['attached_name']: … for d in self.expected }`. -/
def deviceStatesInit (devs : List DeviceConfig) : List (String × DeviceState) :=
  devs.map (fun d => (d.attached_name, initDeviceState d))

/-- Association-list lookup, modelling a Python `dict` read
(insertion-ordered, first match wins; keys are unique in the source). -/
def lookupA {α : Type} : List (String × α) → String → Option α
  | [], _ => Option.none
  | p :: rest, k => if p.1 = k then Option.some p.2 else lookupA rest k

/-- Association-list write, modelling Python `dict` assignment:
replace the value if the key is present, append it otherwise. -/
def updateA {α : Type} : List (String × α) → String → α → List (String × α)
  | [], k, v => [(k, v)]
  | p :: rest, k, v => if p.1 = k then (k, v) :: rest else p :: updateA rest k v

theorem lookupA_updateA {α : Type} (l : List (String × α)) (k : String) (v : α) :
    lookupA (updateA l k v) k = Option.some v := by
  induction l with
  | nil => simp [lookupA, updateA]
  | cons p rest ih =>
      by_cases h : p.1 = k
      · simp [lookupA, updateA, h]
      · simp [lookupA, updateA, h, ih]

theorem lookupA_updateA_ne {α : Type} (l : List (String × α)) (k k' : String) (v : α)
    (h : k ≠ k') : lookupA (updateA l k v) k' = lookupA l k' := by
  induction l with
  | nil => simp [lookupA, updateA, h]
  | cons p rest ih =>
      by_cases hp : p.1 = k
      · simp [lookupA, updateA, hp, h, Ne.symm h]
      · by_cases hp' : p.1 = k'
        · simp [lookupA, updateA, hp, hp', Ne.symm h]
        · simp [lookupA, updateA, hp, hp', ih]

/-- Claim C3 counterexample: a device config that does not set `checked`
yields a registry state with `checked = false`, not `true` as claimed. -/
theorem C3_default_checked_counterexample :
    (initDeviceState
      { attached_name := "A", hostname := "a.local" }).checked = false := by
  decide

/-- Claim C3, amended: for every device entry that does not set the
`checked` key, the registry state created for it has `checked = false`
(the source default `d.get('checked', False)` is false, not true). -/
theorem C3_default_checked_amended (d : DeviceConfig)
    (h : d.checked = Option.none) : (initDeviceState d).checked = false := by
  simp [initDeviceState, h]

theorem C3_default_checked_amended_witness :
    (initDeviceState { attached_name := "B", hostname := "b.local" }).checked = false :=
  C3_default_checked_amended { attached_name := "B", hostname := "b.local" } rfl

/-- A command subscriber on the bus: an identifier plus its behaviour on a
command, which either returns or raises (`Except.error` models a raised
exception caught by `_notify_command`'s `try`/`except`). -/
structure Subscriber where
  sid : Nat
  run : Cmd → Except String Unit

/-- A record of one callback invocation performed by a publish:
which subscriber, with which command, and whether it returned normally. -/
structure Invocation where
  sid : Nat
  cmd : Cmd
  ok : Bool

/-- `DiscoveryService._notify_command` (lines 91-99): iterate the current
subscriber list in order; invoke each callback on the command inside
`try`/`except`, so a raising callback only prints and the loop continues. -/
def notifyCommand : List Subscriber → Cmd → List Invocation
  | [], _ => []
  | s :: rest, cmd =>
      let ok := match s.run cmd with
        | Except.ok _ => true
        | Except.error _ => false
      ⟨s.sid, cmd, ok⟩ :: notifyCommand rest cmd

theorem notifyCommand_map (subs : List Subscriber) (cmd : Cmd) :
    (notifyCommand subs cmd).map (fun i => (i.sid, i.cmd))
      = subs.map (fun s => (s.sid, cmd)) := by
  induction subs with
  | nil => rfl
  | cons s rest ih => simp [notifyCommand, ih]

/-- Claim C6: a publish invokes every subscriber registered before it, with
that command, in registration order; a subscriber that raises does not
prevent the invocation of later subscribers (the invocation list equals the
full subscriber list whatever each callback's outcome is). -/
theorem C6_bus_delivery (subs : List Subscriber) (cmd : Cmd) :
    (notifyCommand subs cmd).map (fun i => (i.sid, i.cmd))
      = subs.map (fun s => (s.sid, cmd)) :=
  notifyCommand_map subs cmd

/-- Outcome of `json.loads` on the raw byte body of an HTTP POST
(`json.loads` is library code outside this repository, so its outcome is
the handler's input): the parsed command, a `json.JSONDecodeError`, or
some other exception — a body that is not valid UTF-8 makes `json.loads`
raise `UnicodeDecodeError`, which is *not* a `json.JSONDecodeError`. -/
inductive HttpBody where
  | jsonOk (cmd : Cmd) : HttpBody
  | decodeErr : HttpBody
  | otherErr : HttpBody

/-- `Handler.do_POST` from `DiscoveryService._make_handler` (lines 259-270):
on a successfully parsed body, publish the command via `_notify_command`
and answer 200; on `json.JSONDecodeError`, answer 400 and publish nothing.
Any other exception from `json.loads` (e.g. `UnicodeDecodeError`) is not
caught by the `except json.JSONDecodeError` clause: it escapes `do_POST`,
so no response is sent at all (`none`) and nothing is published.
Returns the response status, if any, and the invocation log of the
publish. -/
def doPOST (subs : List Subscriber) (body : HttpBody) :
    Option Nat × List Invocation :=
  match body with
  | .jsonOk cmd => (Option.some 200, notifyCommand subs cmd)
  | .decodeErr => (Option.some 400, [])
  | .otherErr => (Option.none, [])

/-- Claim C9 counterexample: a POST body that fails to parse because it is
not valid UTF-8 (`json.loads` raises `UnicodeDecodeError`) gets no
response at all — the exception escapes the handler, so no 400 is sent —
where the claim demands status 400 for every parse failure. -/
theorem C9_http_post_counterexample :
    doPOST [] HttpBody.otherErr = (Option.none, []) := rfl

/-- Claim C9, amended: an HTTP POST whose body parses as JSON publishes
the parsed object on the bus (every subscriber is invoked with it) and
answers 200; a body whose parse raises `json.JSONDecodeError` answers 400
and publishes no command; a body whose parse raises any other exception
(e.g. `UnicodeDecodeError` from a non-UTF-8 body) publishes no command
but also sends no response — the exception escapes `do_POST`. -/
theorem C9_http_post_amended (subs : List Subscriber) (cmd : Cmd) :
    (doPOST subs (.jsonOk cmd)).1 = Option.some 200
      ∧ (doPOST subs (.jsonOk cmd)).2.map (fun i => (i.sid, i.cmd))
          = subs.map (fun s => (s.sid, cmd))
      ∧ doPOST subs .decodeErr = (Option.some 400, [])
      ∧ doPOST subs .otherErr = (Option.none, []) := by
  refine ⟨rfl, ?_, rfl, rfl⟩
  exact notifyCommand_map subs cmd

/-- `self._health_interval = 2.0` (line 36). -/
def health_interval : ℤ := 2

/-- The health-relevant state: the registry `device_states` and the
`_last_health_response` timestamp map (times in seconds as rationals). -/
structure HealthState where
  devices : List (String × DeviceState)
  lastResp : List (String × ℤ)
deriving Repr, DecidableEq

/-- `DiscoveryService._on_internal_command` (lines 331-338): on a
`health_response` for a known device, set `reachable` to the truthiness of
`value` and record the current time; any other command is ignored. -/
def onInternalCommand (now : ℤ) (cmd : Cmd) (s : HealthState) : HealthState :=
  if cmd.ctype = "health_response" then
    match cmd.device with
    | Option.some dev =>
        match lookupA s.devices dev with
        | Option.some st =>
            { devices := updateA s.devices dev { st with reachable := cmd.value.truthy }
              lastResp := updateA s.lastResp dev now }
        | Option.none => s
    | Option.none => s
  else s

/-- The body of `_health_timeout_loop` for one device (lines 347-360):
if the device is `resolved` and `checked`, compare `now` against its last
recorded response time; past `health_interval + 1` seconds mark it
unreachable, advance the timestamp (edge trigger) and emit a
`health_timeout` carrying the hostname; otherwise mark it reachable.
Returns the new state, an optional timestamp write, and the optional
emitted command. -/
def tickDevice (now last : ℤ) (st : DeviceState) :
    DeviceState × Option ℤ × Option Cmd :=
  if st.resolved = true ∧ st.checked = true then
    if now - last > health_interval + 1 then
      ({ st with reachable := false }, Option.some now,
        Option.some { ctype := "health_timeout", value := .str st.hostname })
    else ({ st with reachable := true }, Option.none, Option.none)
  else (st, Option.none, Option.none)

/-- One pass of the `for name, state in self.device_states.items()` loop of
`_health_timeout_loop`, threading the timestamp map and collecting the
published commands in order. -/
def timeoutTickAux (now : ℤ) :
    List (String × DeviceState) → List (String × ℤ) →
      List (String × DeviceState) × List (String × ℤ) × List Cmd
  | [], lr => ([], lr, [])
  | (n, st) :: rest, lr =>
      let last := (lookupA lr n).getD 0
      let r := tickDevice now last st
      let lr' := match r.2.1 with
        | Option.some t => updateA lr n t
        | Option.none => lr
      let rec' := timeoutTickAux now rest lr'
      ((n, r.1) :: rec'.1, rec'.2.1, r.2.2.toList ++ rec'.2.2)

/-- One iteration of `_health_timeout_loop` (lines 345-362) over the whole
registry: returns the updated health state and the list of commands
published during the pass. -/
def timeoutTick (now : ℤ) (s : HealthState) : HealthState × List Cmd :=
  let r := timeoutTickAux now s.devices s.lastResp
  (⟨r.1, r.2.1⟩, r.2.2)

theorem tickDevice_fire (now last : ℤ) (st : DeviceState)
    (h1 : st.resolved = true) (h2 : st.checked = true)
    (h3 : now - last > health_interval + 1) :
    tickDevice now last st
      = ({ st with reachable := false }, Option.some now,
          Option.some { ctype := "health_timeout", value := .str st.hostname }) := by
  simp [tickDevice, h1, h2, h3]

theorem tickDevice_quiet (now last : ℤ) (st : DeviceState)
    (h1 : st.resolved = true) (h2 : st.checked = true)
    (h3 : ¬ now - last > health_interval + 1) :
    tickDevice now last st
      = ({ st with reachable := true }, Option.none, Option.none) := by
  simp [tickDevice, h1, h2, h3]

theorem timeoutTick_single (now t : ℤ) (n : String) (st : DeviceState) :
    timeoutTick now ⟨[(n, st)], [(n, t)]⟩
      = (⟨[(n, (tickDevice now t st).1)],
          match (tickDevice now t st).2.1 with
          | Option.some u => [(n, u)]
          | Option.none => [(n, t)]⟩,
         (tickDevice now t st).2.2.toList) := by
  simp only [timeoutTick, timeoutTickAux, lookupA, updateA, if_pos, Option.getD_some]
  rcases h : (tickDevice now t st).2.1 with _ | u
  · simp [h]
  · simp [h, updateA]

/-- The single-device health state used by the concrete health
counterexamples: one resolved, checked device `A` whose last recorded
response time is 0 and which never receives any `health_response`. -/
def healthCexState : HealthState :=
  ⟨[("A", { hostname := "a.local", resolved := true, checked := true })],
    [("A", 0)]⟩

/-- Claim C2 counterexample: with no `health_response` ever received, the
timeout tick at time 4 publishes a `health_timeout` (so the device is past
its deadline), yet the very next tick at time 5 sets `reachable = true` —
the loop's `else` branch marks any resolved, checked device reachable
whenever its recorded timestamp is recent, even though that timestamp was
written by the timeout itself and no response (let alone one with
`value = true`) ever arrived. -/
theorem C2_reachable_counterexample :
    (timeoutTick 4 healthCexState).2
        = [{ ctype := "health_timeout", value := PyVal.str "a.local" }]
      ∧ (lookupA (timeoutTick 5 (timeoutTick 4 healthCexState).1).1.devices "A").map
          DeviceState.reachable = Option.some true := by
  decide

/-- Claim C2, amended: `reachable` is written by exactly two operations.
A `health_response` for the device sets `reachable` to the truthiness of
its `value`; and every timeout tick sets `reachable` of each resolved,
checked device to true iff the tick falls within `H+G` of the last
*recorded* timestamp — regardless of the value of the response that wrote
the timestamp, and even when the timestamp was written by a previous
timeout rather than by any response. -/
theorem C2_reachable_amended (st : DeviceState) (t now now' : ℤ) (v : PyVal)
    (h1 : st.resolved = true) (h2 : st.checked = true) :
    (lookupA (timeoutTick now ⟨[("A", st)], [("A", t)]⟩).1.devices "A").map
        DeviceState.reachable
        = Option.some (!decide (now - t > health_interval + 1))
      ∧ (lookupA (onInternalCommand now'
            { ctype := "health_response", device := Option.some "A", value := v }
            ⟨[("A", st)], [("A", t)]⟩).devices "A").map DeviceState.reachable
        = Option.some v.truthy := by
  constructor
  · rw [timeoutTick_single]
    by_cases hc : now - t > health_interval + 1
    · rw [tickDevice_fire now t st h1 h2 hc]
      simp [lookupA, hc]
    · rw [tickDevice_quiet now t st h1 h2 hc]
      simp [lookupA, hc]
  · simp [onInternalCommand, lookupA, updateA]

theorem C2_reachable_amended_witness :
    (lookupA (timeoutTick 1
          ⟨[("A", { hostname := "h", resolved := true, checked := true })],
            [("A", 0)]⟩).1.devices "A").map DeviceState.reachable
        = Option.some true
      ∧ (lookupA (onInternalCommand 2
            { ctype := "health_response", device := Option.some "A",
              value := PyVal.bool false }
            ⟨[("A", { hostname := "h", resolved := true, checked := true })],
              [("A", 0)]⟩).devices "A").map DeviceState.reachable
        = Option.some false := by
  have h := C2_reachable_amended
    { hostname := "h", resolved := true, checked := true } 0 1 2 (PyVal.bool false)
    rfl rfl
  constructor
  · rw [h.1]; decide
  · rw [h.2]; rfl

/-- Claim C4 counterexample: a device that is `checked` but never
`resolved` receives no `health_timeout` at all, however long it stays
silent — two consecutive ticks far past the `(H+G)` deadline publish
nothing, where the claim demands exactly one `health_timeout`. -/
theorem C4_timeout_counterexample :
    (timeoutTick 100
        ⟨[("A", { hostname := "a.local", resolved := false, checked := true })],
          [("A", 0)]⟩).2 = []
      ∧ (timeoutTick 101 (timeoutTick 100
          ⟨[("A", { hostname := "a.local", resolved := false, checked := true })],
            [("A", 0)]⟩).1).2 = [] := by
  decide

/-- Claim C4, amended: for every device `d` with `d.checked` **and**
`d.resolved`, if no `health_response` is received within `(H+G)` seconds
of the last recorded timestamp, the next timeout tick publishes exactly one
`health_timeout` whose `value` is the hostname, sets `reachable := false`
and advances the timestamp to `now` (edge trigger); a further tick within
`(H+G)` of the firing publishes nothing more. -/
theorem C4_timeout_amended (st : DeviceState) (t now now' : ℤ)
    (h1 : st.resolved = true) (h2 : st.checked = true)
    (h3 : now - t > health_interval + 1)
    (h4 : ¬ now' - now > health_interval + 1) :
    (timeoutTick now ⟨[("A", st)], [("A", t)]⟩).2
        = [{ ctype := "health_timeout", value := PyVal.str st.hostname }]
      ∧ (lookupA (timeoutTick now ⟨[("A", st)], [("A", t)]⟩).1.devices "A").map
          DeviceState.reachable = Option.some false
      ∧ lookupA (timeoutTick now ⟨[("A", st)], [("A", t)]⟩).1.lastResp "A"
          = Option.some now
      ∧ (timeoutTick now' (timeoutTick now ⟨[("A", st)], [("A", t)]⟩).1).2 = [] := by
  have hfire := tickDevice_fire now t st h1 h2 h3
  rw [timeoutTick_single, hfire]
  refine ⟨rfl, by simp [lookupA], by simp [lookupA], ?_⟩
  rw [timeoutTick_single]
  have hq : tickDevice now' now { st with reachable := false }
      = ({ st with reachable := true }, Option.none, Option.none) := by
    simp [tickDevice, h1, h2, h4]
  rw [hq]
  rfl

theorem C4_timeout_amended_witness :
    (timeoutTick 4
        ⟨[("A", { hostname := "a.local", resolved := true, checked := true })],
          [("A", 0)]⟩).2
        = [{ ctype := "health_timeout", value := PyVal.str "a.local" }]
      ∧ (lookupA (timeoutTick 4
          ⟨[("A", { hostname := "a.local", resolved := true, checked := true })],
            [("A", 0)]⟩).1.devices "A").map DeviceState.reachable
          = Option.some false
      ∧ lookupA (timeoutTick 4
          ⟨[("A", { hostname := "a.local", resolved := true, checked := true })],
            [("A", 0)]⟩).1.lastResp "A" = Option.some 4
      ∧ (timeoutTick 5 (timeoutTick 4
          ⟨[("A", { hostname := "a.local", resolved := true, checked := true })],
            [("A", 0)]⟩).1).2 = [] :=
  C4_timeout_amended
    { hostname := "a.local", resolved := true, checked := true } 0 4 5
    rfl rfl (by norm_num [health_interval]) (by norm_num [health_interval])

/-- `PluginManager.handle`'s subname injection (`PluginManager.py` lines
41-44): if the device's config carries a non-empty `subname`, add it to the
message before calling the plugin's `handle_message`. -/
def subInject (cfg : DeviceConfig) (msg : Cmd) : Cmd :=
  match cfg.subname with
  | Option.some s => if s ≠ "" then { msg with subname := Option.some s } else msg
  | Option.none => msg

/-- `PluginManager.handle` (`PluginManager.py` lines 37-49).  Plugins and
their configs share the same keys (both filled from `devices` in
`__init__`).  Returns the list of `handle_message` invocations performed
and whether the call raised.  An unknown device name is silently a no-op.
When the plugin's `handle_message` raises, the `except` block runs
`self._send_response(...)` — an attribute `__init__` never sets — so an
`AttributeError` escapes `handle`; the invocation has still happened. -/
def pluginHandle (plugins : List (String × DeviceConfig))
    (raises : String → Bool) (name : String) (msg : Cmd) :
    List (String × Cmd) × Bool :=
  match lookupA plugins name with
  | Option.none => ([], false)
  | Option.some cfg => ([(name, subInject cfg msg)], raises name)

/-- The environment `_dispatch_to_plugins` closes over: the UI checkbox
variables `ui.device_vars` (in insertion order), the registry
`disco.device_states`, the loaded plugins with their configs, and — for
each device — whether its plugin's `handle_message` raises on the current
delivery. -/
structure DispatchEnv where
  deviceVars : List (String × Bool)
  deviceStates : List (String × DeviceState)
  plugins : List (String × DeviceConfig)
  raises : String → Bool

/-- Result of one `_dispatch_to_plugins` call: the adapter deliveries
performed (in order), the commands it published on the bus, and whether an
exception escaped the dispatcher itself (to be swallowed by
`_notify_command`'s `try`/`except`). -/
structure DispatchResult where
  delivered : List (String × Cmd)
  published : List Cmd
  raised : Bool
deriving Repr, DecidableEq

/-- The enrichment `{ **cmd, "ip": ip, "port": port, "sub_ip": … }`
(lines 765-767 and 791-793). -/
def enrich (cmd : Cmd) (st : DeviceState) : Cmd :=
  { cmd with ip := st.ip, port := st.port, sub_ip := st.sub_ip }

/-- The broadcast loop of `_dispatch_to_plugins` (lines 756-772): iterate
`ui.device_vars`; skip unchecked devices and devices whose `ip` or `port`
is falsy; deliver the enriched command via `plugin_mgr.handle`.  A missing
registry entry (`KeyError`) or an exception escaping `handle` aborts the
remaining iterations — this call site is not wrapped in `try`. -/
def broadcastLoop (env : DispatchEnv) (cmd : Cmd) :
    List (String × Bool) → DispatchResult
  | [] => ⟨[], [], false⟩
  | (name, var) :: rest =>
      if var = false then broadcastLoop env cmd rest
      else
        match lookupA env.deviceStates name with
        | Option.none => ⟨[], [], true⟩
        | Option.some st =>
            if strOptTruthy st.ip && st.port.truthy then
              let r := pluginHandle env.plugins env.raises name (enrich cmd st)
              if r.2 then ⟨r.1, [], true⟩
              else
                let tail := broadcastLoop env cmd rest
                ⟨r.1 ++ tail.delivered, tail.published, tail.raised⟩
            else broadcastLoop env cmd rest

/-- The targeted branch of `_dispatch_to_plugins` (lines 775-808).
`target` falls back to `cmd["value"]` for `health_timeout`; a falsy or
unknown or unchecked target, or a falsy `ip`/`port`, drops the command.
The delivery is wrapped in `try`: if `handle` raises and the command was a
`health` or `health_timeout`, a negative `health_response` for the target
is published.  (A non-string fallback `value` is modelled as no target:
falsy values return at the `not target` test, and truthy non-strings are
never keys of `ui.device_vars`, so both return without delivering.) -/
def targetedDispatch (env : DispatchEnv) (cmd : Cmd) : DispatchResult :=
  let target : Option String :=
    if strOptTruthy cmd.device = false ∧ cmd.ctype = "health_timeout" then
      match cmd.value with
      | PyVal.str s => Option.some s
      | _ => Option.none
    else cmd.device
  match target with
  | Option.none => ⟨[], [], false⟩
  | Option.some t =>
      if t = "" then ⟨[], [], false⟩
      else
        match lookupA env.deviceVars t with
        | Option.none => ⟨[], [], false⟩
        | Option.some var =>
            if var = false then ⟨[], [], false⟩
            else
              match lookupA env.deviceStates t with
              | Option.none => ⟨[], [], true⟩
              | Option.some st =>
                  if strOptTruthy st.ip && st.port.truthy then
                    let r := pluginHandle env.plugins env.raises t (enrich cmd st)
                    if r.2 ∧ (cmd.ctype = "health" ∨ cmd.ctype = "health_timeout") then
                      ⟨r.1, [{ ctype := "health_response", device := Option.some t,
                               value := PyVal.bool false }], false⟩
                    else ⟨r.1, [], false⟩
                  else ⟨[], [], false⟩

/-- `_dispatch_to_plugins` (`PineappleListener.py` lines 747-808):
discovery-internal types are dropped; `recordStart`/`recordStop`/`fileName`
are broadcast; everything else is targeted. -/
def dispatchToPlugins (env : DispatchEnv) (cmd : Cmd) : DispatchResult :=
  if cmd.ctype = "zeroconf" ∨ cmd.ctype = "zeroconf_removed"
      ∨ cmd.ctype = "dns" ∨ cmd.ctype = "dns_sub" then ⟨[], [], false⟩
  else if cmd.ctype = "recordStart" ∨ cmd.ctype = "recordStop"
      ∨ cmd.ctype = "fileName" then broadcastLoop env cmd env.deviceVars
  else targetedDispatch env cmd

/-- What the broadcast branch owes one `device_vars` entry: checked devices
with a registry entry, a loaded plugin and truthy `ip` and `port` get the
enriched copy (with the plugin host's subname injection); everyone else
gets nothing. -/
def broadcastDelivery (env : DispatchEnv) (cmd : Cmd) (p : String × Bool) :
    Option (String × Cmd) :=
  if p.2 then
    match lookupA env.deviceStates p.1, lookupA env.plugins p.1 with
    | Option.some st, Option.some cfg =>
        if strOptTruthy st.ip && st.port.truthy then
          Option.some (p.1, subInject cfg (enrich cmd st))
        else Option.none
    | _, _ => Option.none
  else Option.none

theorem broadcastLoop_eq (env : DispatchEnv) (cmd : Cmd)
    (hr : ∀ n, env.raises n = false) :
    ∀ l : List (String × Bool),
      (∀ p ∈ l, (lookupA env.deviceStates p.1).isSome = true) →
      (∀ p ∈ l, (lookupA env.plugins p.1).isSome = true) →
      broadcastLoop env cmd l
        = ⟨l.filterMap (broadcastDelivery env cmd), [], false⟩ := by
  intro l
  induction l with
  | nil => intro _ _; rfl
  | cons p rest ih =>
      intro h1 h2
      obtain ⟨name, var⟩ := p
      have hst := h1 (name, var) (List.mem_cons_self _ _)
      have hcf := h2 (name, var) (List.mem_cons_self _ _)
      have ihr := ih (fun q hq => h1 q (List.mem_cons_of_mem _ hq))
        (fun q hq => h2 q (List.mem_cons_of_mem _ hq))
      rcases hst' : lookupA env.deviceStates name with _ | st
      · rw [hst'] at hst; simp at hst
      rcases hcf' : lookupA env.plugins name with _ | cfg
      · rw [hcf'] at hcf; simp at hcf
      by_cases hv : var = false
      · subst hv
        simp [broadcastLoop, ihr, List.filterMap_cons, broadcastDelivery]
      · have hv' : var = true := by
          cases var
          · exact absurd rfl hv
          · rfl
        subst hv'
        by_cases hip : strOptTruthy st.ip = true ∧ st.port.truthy = true
        · simp [broadcastLoop, hst', hcf', pluginHandle, hr, ihr,
            List.filterMap_cons, broadcastDelivery, Bool.and_eq_true, hip]
        · simp [broadcastLoop, hst', hcf', ihr, List.filterMap_cons,
            broadcastDelivery, Bool.and_eq_true, hip]

/-- Claim C7: commands of type `zeroconf`, `zeroconf_removed`, `dns` or
`dns_sub` are dropped by the dispatcher before any adapter is touched:
no delivery, no publication, no escaping exception. -/
theorem C7_discovery_internal_dropped (env : DispatchEnv) (cmd : Cmd)
    (h : cmd.ctype = "zeroconf" ∨ cmd.ctype = "zeroconf_removed"
      ∨ cmd.ctype = "dns" ∨ cmd.ctype = "dns_sub") :
    dispatchToPlugins env cmd = ⟨[], [], false⟩ := by
  unfold dispatchToPlugins
  rw [if_pos h]

/-- A concrete dispatch environment: one checked device `A` with resolved
endpoint `10.0.0.5:5000`, a loaded plugin, and a `handle_message` that
never raises. -/
def envW : DispatchEnv :=
  { deviceVars := [("A", true)]
    deviceStates := [("A",
      { hostname := "a.local", ip := Option.some "10.0.0.5", resolved := true,
        checked := true, port := PyVal.nat 5000 })]
    plugins := [("A", { attached_name := "A", hostname := "a.local" })]
    raises := fun _ => false }

theorem C7_discovery_internal_dropped_witness :
    dispatchToPlugins envW { ctype := "dns" } = ⟨[], [], false⟩ :=
  C7_discovery_internal_dropped envW { ctype := "dns" }
    (Or.inr (Or.inr (Or.inl rfl)))

/-- Claim C1 counterexample: `setPath` and `broadcastGlos` are *not* in the
dispatcher's broadcast tuple `("recordStart", "recordStop", "fileName")`;
with a checked device whose `ip` and `port` are non-empty, a `setPath` or
`broadcastGlos` command (which carries no `device` field) is delivered to
no adapter at all, where the claim demands delivery to every such device. -/
theorem C1_broadcast_counterexample :
    lookupA envW.deviceVars "A" = Option.some true
      ∧ (lookupA envW.deviceStates "A").map
          (fun st => strOptTruthy st.ip && st.port.truthy) = Option.some true
      ∧ (dispatchToPlugins envW { ctype := "setPath", value := PyVal.str "D:/rec" }).delivered = []
      ∧ (dispatchToPlugins envW { ctype := "broadcastGlos", value := PyVal.str "HALLO" }).delivered = [] := by
  decide

/-- Claim C1, amended: the broadcast set is only
{`recordStart`, `recordStop`, `fileName`} (`broadcastGlos` and `setPath`
fall through to the targeted branch and, carrying no `device` field, are
dropped).  For a broadcast-set command, provided every listed device has a
registry entry and a loaded adapter and no adapter raises while handling,
the dispatcher delivers the enriched copy `{…cmd, ip, port, sub_ip}` (plus
the plugin host's subname injection) to the adapter of exactly the checked
devices whose `ip` and `port` are truthy, in listing order, and publishes
nothing. -/
theorem C1_broadcast_amended (env : DispatchEnv) (cmd : Cmd)
    (hty : cmd.ctype = "recordStart" ∨ cmd.ctype = "recordStop"
      ∨ cmd.ctype = "fileName")
    (hwf : ∀ p ∈ env.deviceVars, (lookupA env.deviceStates p.1).isSome = true)
    (hpl : ∀ p ∈ env.deviceVars, (lookupA env.plugins p.1).isSome = true)
    (hr : ∀ n, env.raises n = false) :
    dispatchToPlugins env cmd
      = ⟨env.deviceVars.filterMap (broadcastDelivery env cmd), [], false⟩ := by
  have hb := broadcastLoop_eq env cmd hr env.deviceVars hwf hpl
  rcases hty with h | h | h <;> simp [dispatchToPlugins, h, hb]

theorem C1_broadcast_amended_witness :
    dispatchToPlugins envW { ctype := "fileName", value := PyVal.str "take_01" }
      = ⟨envW.deviceVars.filterMap
          (broadcastDelivery envW { ctype := "fileName", value := PyVal.str "take_01" }),
         [], false⟩ :=
  C1_broadcast_amended envW { ctype := "fileName", value := PyVal.str "take_01" }
    (Or.inr (Or.inr rfl)) (by decide) (by decide) (fun _ => rfl)

/-- The `{'type':'zeroconf', …}` command a Zeroconf event builds
(lines 174-182): its name, address list and port. -/
structure ZcCmd where
  name : Option String := Option.none
  addresses : List String := []
  port : PyVal := PyVal.none
deriving Repr, DecidableEq

/-- Python's `s.startswith(pre)`, computed on the character lists. -/
def pyStartsWith (s pre : String) : Bool :=
  pre.data.isPrefixOf s.data

/-- `DiscoveryService._check_zc_in_devices` (lines 221-231): the first
expected device whose `attached_name` — or, failing that, `hostname` —
equals the service name or is a prefix of it; returns its `attached_name`. -/
def checkZcInDevices (expected : List DeviceConfig) (name : String) :
    Option String :=
  match expected with
  | [] => Option.none
  | d :: rest =>
      if d.attached_name = name ∨ pyStartsWith name d.attached_name then
        Option.some d.attached_name
      else if d.hostname = name ∨ pyStartsWith name d.hostname then
        Option.some d.attached_name
      else checkZcInDevices rest name

/-- `DiscoveryService._zc_service_to_device` (lines 233-254): on a service
command whose (truthy) name matches an expected device, overwrite that
device's registry entry with `ip := addresses[0]`, `port`,
`resolved := True` **and** `checked := True`, then notify the device
subscribers with the new endpoint.  Returns the updated registry and the
notified `(name, ip, port)`, if any.  (In the source the device keyed by
the match is always present in `device_states`; an empty address list
would raise `IndexError`, so the claims assume a non-empty one.) -/
def zcServiceToDevice (expected : List DeviceConfig)
    (states : List (String × DeviceState)) (cmd : ZcCmd) :
    List (String × DeviceState) × Option (String × Option String × PyVal) :=
  match cmd.name with
  | Option.none => (states, Option.none)
  | Option.some n =>
      if n = "" then (states, Option.none)
      else
        match checkZcInDevices expected n with
        | Option.none => (states, Option.none)
        | Option.some devName =>
            match lookupA states devName with
            | Option.none => (states, Option.none)
            | Option.some st =>
                let st' := { st with ip := cmd.addresses.head?, port := cmd.port,
                                     resolved := true, checked := true }
                (updateA states devName st',
                  Option.some (devName, st'.ip, st'.port))

/-- Claim C10 (implicit): an mDNS service event that matches an expected
device rewrites that device's registry entry with the service's first
address and port, `resolved := true`, and — regardless of its previous
value — `checked := true`: a device the user or config had opted out of
health checks is silently re-enabled by any matching mDNS event. -/
theorem C10_mdns_reenables_checked (expected : List DeviceConfig)
    (states : List (String × DeviceState)) (cmd : ZcCmd)
    (n devName : String) (st : DeviceState)
    (hn : cmd.name = Option.some n) (hne : n ≠ "")
    (hmatch : checkZcInDevices expected n = Option.some devName)
    (hst : lookupA states devName = Option.some st) :
    lookupA (zcServiceToDevice expected states cmd).1 devName
      = Option.some { st with ip := cmd.addresses.head?, port := cmd.port,
                              resolved := true, checked := true } := by
  simp only [zcServiceToDevice, hn, hne, hmatch, hst, if_neg hne]
  exact lookupA_updateA states devName _

theorem C10_mdns_reenables_checked_witness :
    lookupA (zcServiceToDevice
        [{ attached_name := "A", hostname := "a.local" }]
        [("A", { hostname := "a.local", checked := false })]
        { name := Option.some "A._mocap._tcp.local.",
          addresses := ["10.0.0.5"], port := PyVal.nat 5000 }).1 "A"
      = Option.some { hostname := "a.local", ip := Option.some "10.0.0.5",
                      resolved := true, checked := true, port := PyVal.nat 5000 } :=
  C10_mdns_reenables_checked
    [{ attached_name := "A", hostname := "a.local" }]
    [("A", { hostname := "a.local", checked := false })]
    { name := Option.some "A._mocap._tcp.local.",
      addresses := ["10.0.0.5"], port := PyVal.nat 5000 }
    "A._mocap._tcp.local." "A" { hostname := "a.local", checked := false }
    rfl (by decide) (by decide) (by decide)

/-- The `remember_filename` subscriber (lines 812-817): cache the `value`
of every `fileName` command in the global `last_filename` slot. -/
def rememberFilename (cmd : Cmd) (last : PyVal) : PyVal :=
  if cmd.ctype = "fileName" then cmd.value else last

/-- Python's `s.split(c)` on the character list: the segments between
occurrences of `c` (an empty string yields `[""]`, like Python). -/
def pySplitChar (c : Char) : List Char → List (List Char)
  | [] => [[]]
  | x :: xs =>
      let r := pySplitChar c xs
      if x = c then [] :: r
      else
        match r with
        | [] => [[x]]
        | y :: ys => (x :: y) :: ys

/-- The `ip, port = ip_and_port.split(':') if ':' in ip_and_port else
(ip_and_port, disco.server['ws_port'])` step of `resend_on_connect`
(line 825): one colon splits into the pair, no colon pairs the whole
string with the configured WebSocket port.  `none` models the
`ValueError` a string with two or more colons raises on tuple unpacking
(that exception is swallowed by `_notify_device`'s bare `except`). -/
def parseIpPort (wsPort : PyVal) (s : String) : Option (String × PyVal) :=
  match (pySplitChar ':' s.data).map String.mk with
  | [_] => Option.some (s, wsPort)
  | [i, p] => Option.some (i, PyVal.str p)
  | _ => Option.none

/-- The `resend_on_connect` device subscriber (lines 819-838): on a device
event carrying a truthy endpoint, when the cached `last_filename` is
truthy, rebuild an enriched `fileName` command for that device and hand it
to its adapter via `plugin_mgr.handle`.  Returns the adapter deliveries
performed (the `raises` outcome of the adapter does not undo the
delivery). -/
def resendOnConnect (states : List (String × DeviceState))
    (plugins : List (String × DeviceConfig)) (raises : String → Bool)
    (wsPort : PyVal) (last : PyVal) (name : String)
    (ipAndPort : Option String) : List (String × Cmd) :=
  match ipAndPort with
  | Option.none => []
  | Option.some s =>
      if s = "" ∨ last.truthy = false then []
      else
        match parseIpPort wsPort s with
        | Option.none => []
        | Option.some (i, p) =>
            match lookupA states name with
            | Option.none => []
            | Option.some st =>
                (pluginHandle plugins raises name
                  { ctype := "fileName", device := Option.some name, value := last,
                    ip := Option.some i, port := p, sub_ip := st.sub_ip }).1

/-- Claim C5 counterexample: the replay cache does retain the payload of
the last `fileName` command, but a cached *empty* payload is never
re-delivered — `resend_on_connect` returns at `not last_filename` — so a
device coming up after `{type:"fileName", value:""}` receives nothing,
where the claim demands exactly one delivery of the cached command. -/
theorem C5_replay_counterexample :
    rememberFilename { ctype := "fileName", value := PyVal.str "" }
        (PyVal.str "take_01") = PyVal.str ""
      ∧ resendOnConnect
          [("A", { hostname := "a.local", ip := Option.some "10.0.0.5",
                   resolved := true, checked := true, port := PyVal.nat 5000 })]
          [("A", { attached_name := "A", hostname := "a.local" })]
          (fun _ => false) (PyVal.nat 8766) (PyVal.str "")
          "A" (Option.some "10.0.0.5:5000") = [] := by
  decide

/-- Claim C5, amended: the payload of the last `fileName` command is
retained, and on a device event carrying an endpoint the cached command is
re-delivered to that device's adapter — enriched with `ip`, `port` and
`sub_ip` — exactly once and to that device only, *provided the cached
payload is truthy* (an empty or missing cached value is treated as nothing
to replay). -/
theorem C5_replay_amended (states : List (String × DeviceState))
    (plugins : List (String × DeviceConfig)) (raises : String → Bool)
    (wsPort last : PyVal) (name s : String) (i : String) (p : PyVal)
    (st : DeviceState) (cfg : DeviceConfig) (c : Cmd) (prev : PyVal)
    (hc : c.ctype = "fileName")
    (hs : s ≠ "") (hlast : last.truthy = true)
    (hparse : parseIpPort wsPort s = Option.some (i, p))
    (hst : lookupA states name = Option.some st)
    (hplug : lookupA plugins name = Option.some cfg) :
    rememberFilename c prev = c.value
      ∧ resendOnConnect states plugins raises wsPort last name (Option.some s)
        = [(name, subInject cfg
            { ctype := "fileName", device := Option.some name, value := last,
              ip := Option.some i, port := p, sub_ip := st.sub_ip })] := by
  constructor
  · simp [rememberFilename, hc]
  · simp [resendOnConnect, hs, hlast, hparse, hst, pluginHandle, hplug]

theorem C5_replay_amended_witness :
    rememberFilename { ctype := "fileName", value := PyVal.str "take_01" }
        PyVal.none = PyVal.str "take_01"
      ∧ resendOnConnect
          [("A", { hostname := "a.local", ip := Option.some "10.0.0.5",
                   resolved := true, checked := true, port := PyVal.nat 5000 })]
          [("A", { attached_name := "A", hostname := "a.local" })]
          (fun _ => false) (PyVal.nat 8766) (PyVal.str "take_01")
          "A" (Option.some "10.0.0.5:5000")
        = [("A", { ctype := "fileName", device := Option.some "A",
                   value := PyVal.str "take_01", ip := Option.some "10.0.0.5",
                   port := PyVal.str "5000" })] :=
  C5_replay_amended
    [("A", { hostname := "a.local", ip := Option.some "10.0.0.5",
             resolved := true, checked := true, port := PyVal.nat 5000 })]
    [("A", { attached_name := "A", hostname := "a.local" })]
    (fun _ => false) (PyVal.nat 8766) (PyVal.str "take_01") "A"
    "10.0.0.5:5000" "10.0.0.5" (PyVal.str "5000")
    { hostname := "a.local", ip := Option.some "10.0.0.5",
      resolved := true, checked := true, port := PyVal.nat 5000 }
    { attached_name := "A", hostname := "a.local" }
    { ctype := "fileName", value := PyVal.str "take_01" } PyVal.none
    rfl (by decide) (by decide) (by decide) (by decide) (by decide)

end Pineapple
